import Mathlib

/-!
# Verification of `dummy-img-gen` (`src/dummy_img_gen.py`)

A shallow embedding of the placeholder-image generator and proofs about it.

Modelling conventions:
* Python `int` is `Int` (arbitrary precision); Python `//` (floor division)
  is `Int.fdiv`.
* Python `float` ratios (`target_ratio`, `padding`) are modelled as exact
  rationals `ℚ`; the claims under study concern the search/centering logic,
  not binary floating-point rounding.
* PIL (`ImageFont.truetype`, `font.getbbox`, `Image`/`ImageDraw`/`save`) and
  the OS (`os.path.exists`, `os.walk`) are external collaborators; they are
  parameters (oracles) of the embedded functions.  A raised exception is an
  `Except.error` / `Option.none` result of the oracle.
* Filesystem contents are a map `String → Option (List Nat)` from paths to
  byte lists; `os.path.exists p` is `(fs p).isSome` for output paths.
-/

/-- `font.getbbox(text)` result: the `(left, top, right, bottom)` tuple. -/
structure BBox where
  left : Int
  top : Int
  right : Int
  bottom : Int
deriving Repr, DecidableEq

/-- One probe of the body of the `try:` block in `calculate_font_size`
(lines 128-134): load the font at size `s`, measure the text, and test
`text_width <= target_width and text_height <= target_height`.
`measure s = none` models any exception raised while loading/measuring,
which the `except` branch treats exactly like an unfit size. -/
def fitsAt (measure : Int → Option BBox) (target_width target_height : ℚ) (s : Int) : Bool :=
  match measure s with
  | none => false
  | some b => decide (((b.right - b.left : Int) : ℚ) ≤ target_width)
      && decide (((b.bottom - b.top : Int) : ℚ) ≤ target_height)

/-- The `while size_min <= size_max` loop of `calculate_font_size`
(lines 126-141): binary search keeping `best` (= `optimal_size`), probing
`mid = (size_min + size_max) // 2`, raising the lower bound past a fitting
midpoint and lowering the upper bound below an unfit (or erroring) one. -/
def fontSearch (p : Int → Bool) (lo hi best : Int) : Int :=
  if lo ≤ hi then
    if p ((lo + hi).fdiv 2) then
      fontSearch p ((lo + hi).fdiv 2 + 1) hi ((lo + hi).fdiv 2)
    else
      fontSearch p lo ((lo + hi).fdiv 2 - 1) best
  else best
termination_by (hi + 1 - lo).toNat
decreasing_by
  · rw [Int.fdiv_eq_ediv _ (by omega)] at *
    omega
  · rw [Int.fdiv_eq_ediv _ (by omega)] at *
    omega

/-- `calculate_font_size` (lines 98-142).  `measure font_path text s` is the
oracle for `ImageFont.truetype(font_path, s).getbbox(text)`, `none` when that
raises.  Bounds: `size_min = 10`, `size_max = min width height`, initial
`optimal_size = 10`. -/
def calculate_font_size (measure : String → String → Int → Option BBox)
    (text : String) (image_size : Int × Int) (font_path : String)
    (target_r : ℚ) : Int :=
  let width := image_size.1
  let height := image_size.2
  let target_width := (width : ℚ) * target_r
  let target_height := (height : ℚ) * target_r
  fontSearch (fitsAt (measure font_path text) target_width target_height)
    10 (min width height) 10

/-- The centering computation of `generate_placeholder_image`
(lines 208-211): `x = (size[0] - text_width) // 2`,
`y = (size[1] - text_bbox[1] - text_bbox[3]) // 2`. -/
def centered_origin (size : Int × Int) (text_bbox : BBox) : Int × Int :=
  let text_width := text_bbox.right - text_bbox.left
  ((size.1 - text_width).fdiv 2,
   (size.2 - text_bbox.top - text_bbox.bottom).fdiv 2)

/-- Value of one hexadecimal digit, `none` for a non-hex character. -/
def hexDigitVal (c : Char) : Option Nat :=
  if '0' ≤ c && c ≤ '9' then some (c.toNat - 48)
  else if 'a' ≤ c && c ≤ 'f' then some (c.toNat - 87)
  else if 'A' ≤ c && c ≤ 'F' then some (c.toNat - 55)
  else none

/-- Hex-digit values of a character list, `none` if any character is not a
hex digit. -/
def hexVals : List Char → Option (List Nat)
  | [] => some []
  | c :: cs =>
    match hexDigitVal c, hexVals cs with
    | some v, some vs => some (v :: vs)
    | _, _ => none

/-- Modelled from the spec: `PIL.ImageColor.getcolor(color, "RGBA")`, the
external colour parser `parse_color` delegates to (line 93).  Not part of
this repository's sources.  Per the spec it accepts `#`-prefixed hex with
3, 4, 6 or 8 digits read as R,G,B[,A] (digits doubled in the short forms)
or a name from a standard web-colour table (here the parameter `names`,
an association list from lower-case names to RGB channel lists; the query
is lower-cased character-wise), and returns 4 channels with alpha
defaulting to 255. -/
def getcolorRGBA (names : List (String × List Nat)) (color : String) : Option (List Nat) :=
  match color.toList with
  | '#' :: ds =>
    (match hexVals ds with
     | none => none
     | some vs =>
       match vs with
       | [r, g, b] => some [17 * r, 17 * g, 17 * b, 255]
       | [r, g, b, a] => some [17 * r, 17 * g, 17 * b, 17 * a]
       | [r1, r2, g1, g2, b1, b2] =>
           some [16 * r1 + r2, 16 * g1 + g2, 16 * b1 + b2, 255]
       | [r1, r2, g1, g2, b1, b2, a1, a2] =>
           some [16 * r1 + r2, 16 * g1 + g2, 16 * b1 + b2, 16 * a1 + a2]
       | _ => none)
  | _ =>
    match names.lookup (String.mk (color.toList.map Char.toLower)) with
    | some rgb => some (rgb ++ [255])
    | none => none

/-- `parse_color` (lines 75-95): delegate to the backend parser and turn its
`ValueError` into `ValueError(f"Unrecognized color: {color}")`. -/
def parse_color (names : List (String × List Nat)) (color : String) :
    Except String (List Nat) :=
  match getcolorRGBA names color with
  | some c => Except.ok c
  | none => Except.error ("Unrecognized color: " ++ color)

/-- The three platform categories of `find_system_font` (lines 30-50):
`os.name == 'nt'`, `sys.platform == 'darwin'`, and everything else. -/
inductive Platform
  | windows
  | darwin
  | other
deriving DecidableEq, Repr

/-- The hard-coded `potential_fonts` list per platform (lines 29-50). -/
def potential_fonts : Platform → List String
  | Platform.windows =>
      ["C:\\Windows\\Fonts\\Arial.ttf",
       "C:\\Windows\\Fonts\\Arial Bold.ttf",
       "C:\\Windows\\Fonts\\Calibri.ttf",
       "C:\\Windows\\Fonts\\Segoe UI Bold.ttf"]
  | Platform.darwin =>
      ["/System/Library/Fonts/Helvetica.ttc",
       "/System/Library/Fonts/SFCompact-Bold.otf",
       "/Library/Fonts/Arial.ttf",
       "/Library/Fonts/Arial Bold.ttf"]
  | Platform.other =>
      ["/usr/share/fonts/truetype/dejavu/DejaVuSans-Bold.ttf",
       "/usr/share/fonts/truetype/liberation/LiberationSans-Bold.ttf",
       "/usr/share/fonts/truetype/ubuntu/Ubuntu-Bold.ttf",
       "/usr/share/fonts/TTF/Arial.ttf"]

/-- The fallback `font_dirs` list (lines 56-63); `home` is the expansion of
`os.path.expanduser("~")`. -/
def font_dirs (home : String) : List String :=
  ["/usr/share/fonts",
   "/usr/local/share/fonts",
   home ++ "/.fonts",
   "C:\\Windows\\Fonts",
   "/Library/Fonts",
   "/System/Library/Fonts"]

/-- `file.lower().endswith(('.ttf', '.otf'))` (line 69); `str.lower` is
modelled character-wise by `Char.toLower` and `endswith` as a suffix test
on the character list. -/
def isFontFile (file : String) : Bool :=
  List.isSuffixOf ".ttf".toList (file.toList.map Char.toLower) ||
  List.isSuffixOf ".otf".toList (file.toList.map Char.toLower)

/-- The fallback loop of `find_system_font` (lines 65-70): for each existing
directory, scan its recursive walk — `walk d` is the oracle for `os.walk(d)`
flattened to `(root, file)` pairs in traversal order — and return
`os.path.join(root, file)` (modelled as POSIX `root ++ "/" ++ file`) for the
first font file; otherwise move to the next directory. -/
def findFontInDirs (pathExists : String → Bool)
    (walk : String → List (String × String)) :
    List String → Option String
  | [] => none
  | d :: ds =>
    if pathExists d then
      match (walk d).find? (fun rf => isFontFile rf.2) with
      | some rf => some (rf.1 ++ "/" ++ rf.2)
      | none => findFontInDirs pathExists walk ds
    else findFontInDirs pathExists walk ds

/-- `find_system_font` (lines 16-72).  `pathExists` is the oracle for
`os.path.exists`; the raised `FileNotFoundError` is an `Except.error`
carrying the message of line 72. -/
def find_system_font (platform : Platform) (pathExists : String → Bool)
    (walk : String → List (String × String)) (home : String) :
    Except String String :=
  match (potential_fonts platform).find? pathExists with
  | some font_path => Except.ok font_path
  | none =>
    match findFontInDirs pathExists walk (font_dirs home) with
    | some p => Except.ok p
    | none => Except.error
        "Could not find any usable font. Please specify a font with --font-path."

/-- The `format` literal `"png" | "jpg" | "webp"`. -/
inductive ImgFormat
  | png
  | jpg
  | webp
deriving DecidableEq, Repr

/-- The string value of the `format` literal (used in f-string filenames). -/
def fmtExt : ImgFormat → String
  | ImgFormat.png => "png"
  | ImgFormat.jpg => "jpg"
  | ImgFormat.webp => "webp"

/-- A loaded `ImageFont.truetype(path, size)` handle. -/
structure Font where
  path : String
  size : Int
deriving DecidableEq

/-- The external collaborators of `generate_placeholder_image`:
`find_font` is the outcome `find_system_font()` would have (line 186);
`truetype`/`getbbox` are PIL font loading and measuring, `Except.error`
modelling a raised exception; `encode` abstracts
`Image.new` + `draw.text` + `img.save` into the bytes written, as a function
of format, canvas size, background fill, text fill, text, draw origin, font,
font size and the `jpg_quality` save option. -/
structure GenEnv where
  find_font : Except String String
  truetype : String → Int → Except String Font
  getbbox : Font → String → Except String BBox
  encode : ImgFormat → (Int × Int) → List Nat → List Nat → String →
      (Int × Int) → Font → Int → Int → List Nat

/-- The measurement oracle induced by an environment: both
`ImageFont.truetype` and `getbbox` sit inside the `try:` of
`calculate_font_size` (lines 128-132), so either failing yields `none`. -/
def measureOf (env : GenEnv) (font_path text : String) (s : Int) : Option BBox :=
  match env.truetype font_path s with
  | Except.error _ => none
  | Except.ok font =>
    match env.getbbox font text with
    | Except.error _ => none
    | Except.ok b => some b

/-- `generate_placeholder_image` (lines 145-226) over filesystem `fs`.
Returns `((fs', printed lines), result)`; a raised exception is an
`Except.error` result with `fs` unchanged (nothing was saved).
`os.makedirs` touches only directories, which the file map does not track. -/
def generate_placeholder_image (env : GenEnv) (names : List (String × List Nat))
    (fs : String → Option (List Nat))
    (number : Int) (output_path : String) (size : Int × Int)
    (bg_color : String) (text_color : String) (format : ImgFormat)
    (font_path : Option String) (font_size : Option Int)
    (jpg_quality : Int) (overwrite : Bool) (padding : ℚ) :
    ((String → Option (List Nat)) × List String) × Except String String :=
  if (fs output_path).isSome && !overwrite then
    ((fs, ["Skipping " ++ output_path ++ " (already exists)"]), Except.ok output_path)
  else
    match (match font_path with
           | some p => Except.ok p
           | none => env.find_font) with
    | Except.error e => ((fs, []), Except.error e)
    | Except.ok fpath =>
      match parse_color names bg_color with
      | Except.error e => ((fs, []), Except.error e)
      | Except.ok bg_rgba =>
        match parse_color names text_color with
        | Except.error e => ((fs, []), Except.error e)
        | Except.ok text_rgba =>
          let text := toString number
          let fsize := match font_size with
            | some s => s
            | none => calculate_font_size (measureOf env) text size fpath
                (1 - 2 * padding)
          match env.truetype fpath fsize with
          | Except.error e => ((fs, []), Except.error ("Font error: " ++ e))
          | Except.ok font =>
            match env.getbbox font text with
            | Except.error e => ((fs, []), Except.error e)
            | Except.ok text_bbox =>
              let origin := centered_origin size text_bbox
              let bg_fill := if format = ImgFormat.jpg then bg_rgba.take 3 else bg_rgba
              let fill_color := if format = ImgFormat.jpg then text_rgba.take 3 else text_rgba
              let content := env.encode format size bg_fill fill_color text origin font fsize jpg_quality
              ((fun p => if p = output_path then some content else fs p, []),
               Except.ok output_path)

/-- The `for i in range(count)` loop of `generate_placeholder_images`
(lines 271-284), processing `count` images starting at `current_num`:
build `output_path = os.path.join(output_dir, f"{prefix}{current_num}.{format}")`,
attempt the image, print `"Generated: <path>"` and collect the path on
success, print `"Error generating <path>: <e>"` on a caught exception, and
continue with the next number either way.
Returns `((final fs, printed lines), generated_files)`. -/
def batchLoop (env : GenEnv) (names : List (String × List Nat))
    (output_dir : String) (size : Int × Int) (bg_color text_color : String)
    (format : ImgFormat) (pfx : String) (font_size : Option Int)
    (font_path : Option String) (jpg_quality : Int) (overwrite : Bool)
    (padding : ℚ) :
    (String → Option (List Nat)) → Int → Nat →
    ((String → Option (List Nat)) × List String) × List String
  | fs, _, 0 => ((fs, []), [])
  | fs, current_num, Nat.succ n =>
    let filename := pfx ++ toString current_num ++ "." ++ fmtExt format
    let output_path := output_dir ++ "/" ++ filename
    match generate_placeholder_image env names fs current_num output_path size
        bg_color text_color format font_path font_size jpg_quality overwrite
        padding with
    | ((fs1, log1), Except.ok path) =>
      let rest := batchLoop env names output_dir size bg_color text_color format
          pfx font_size font_path jpg_quality overwrite padding fs1
          (current_num + 1) n
      ((rest.1.1, log1 ++ ("Generated: " ++ path) :: rest.1.2), path :: rest.2)
    | ((fs1, log1), Except.error e) =>
      let rest := batchLoop env names output_dir size bg_color text_color format
          pfx font_size font_path jpg_quality overwrite padding fs1
          (current_num + 1) n
      ((rest.1.1, log1 ++ ("Error generating " ++ output_path ++ ": " ++ e) :: rest.1.2),
       rest.2)

/-- `generate_placeholder_images` (lines 229-286): `os.makedirs` only
creates directories (untracked), then the loop runs from `start_num` for
`count` iterations. -/
def generate_placeholder_images (env : GenEnv) (names : List (String × List Nat))
    (fs : String → Option (List Nat)) (output_dir : String) (count : Nat)
    (start_num : Int) (size : Int × Int) (bg_color text_color : String)
    (format : ImgFormat) (pfx : String) (font_size : Option Int)
    (font_path : Option String) (jpg_quality : Int) (overwrite : Bool)
    (padding : ℚ) :
    ((String → Option (List Nat)) × List String) × List String :=
  batchLoop env names output_dir size bg_color text_color format pfx font_size
    font_path jpg_quality overwrite padding fs start_num count

/-- A constant measurement backend: every probed size reports the bounding
box `(0, 0, 20, 20)`. -/
def measC1 : String → String → Int → Option BBox :=
  fun _ _ _ => some ⟨0, 0, 20, 20⟩

/-- A concrete filesystem holding one file at `a.png`. -/
def fsA : String → Option (List Nat) :=
  fun p => if p = "a.png" then some [7] else none

/-- A concrete rendering environment: loading always succeeds, measuring
fails exactly for the text `"2"`, and encoding yields a fixed byte. -/
def envW : GenEnv where
  find_font := Except.ok "/usr/share/fonts/W.ttf"
  truetype := fun p s => Except.ok ⟨p, s⟩
  getbbox := fun _ t =>
    if t = "2" then Except.error "bad glyph" else Except.ok ⟨0, 0, 1, 1⟩
  encode := fun _ _ _ _ _ _ _ _ _ => [0]

/-- A walk oracle for the witness: `/usr/share/fonts` holds a subdirectory
with one font file (upper-case extension). -/
def walkW : String → List (String × String) :=
  fun d =>
    if d = "/usr/share/fonts"
    then [("/usr/share/fonts/sub", "Zfont.TTF")]
    else []

/-- The hex grammar, stated from the spec's words: a `#` followed by 3, 4,
6 or 8 hex digits. -/
def isHexColor (color : String) : Bool :=
  match color.toList with
  | '#' :: ds =>
      ds.all (fun c => (hexDigitVal c).isSome) &&
      (ds.length = 3 || ds.length = 4 || ds.length = 6 || ds.length = 8)
  | _ => false

/-! ## Properties of the binary search -/

/-- One unfolding of the search loop. -/
theorem fontSearch_step (p : Int → Bool) (lo hi best : Int) :
    fontSearch p lo hi best =
      if lo ≤ hi then
        if p ((lo + hi).fdiv 2) then
          fontSearch p ((lo + hi).fdiv 2 + 1) hi ((lo + hi).fdiv 2)
        else fontSearch p lo ((lo + hi).fdiv 2 - 1) best
      else best := by
  rw [fontSearch]

/-- The probed midpoint `(lo + hi) // 2` lies between the bounds. -/
theorem fdiv2_bounds {lo hi : Int} (h : lo ≤ hi) :
    lo ≤ (lo + hi).fdiv 2 ∧ (lo + hi).fdiv 2 ≤ hi := by
  rw [Int.fdiv_eq_ediv _ (by omega)]
  omega

/-- If no size in the current range satisfies the probe, the search returns
its running best unchanged. -/
theorem fontSearch_all_false (p : Int → Bool) (lo hi best : Int)
    (hall : ∀ s : Int, lo ≤ s → s ≤ hi → p s = false) :
    fontSearch p lo hi best = best := by
  rw [fontSearch_step]
  by_cases h : lo ≤ hi
  · obtain ⟨hm1, hm2⟩ := fdiv2_bounds h
    rw [if_pos h, if_neg (by simp [hall _ hm1 hm2])]
    exact fontSearch_all_false p lo ((lo + hi).fdiv 2 - 1) best
      (fun s h1 h2 => hall s h1 (by omega))
  · rw [if_neg h]
termination_by (hi + 1 - lo).toNat
decreasing_by
  rw [Int.fdiv_eq_ediv _ (by omega)] at *
  omega

/-- The search result never drops below 10 when both the lower bound and the
running best are at least 10 (as they are at entry). -/
theorem fontSearch_ge (p : Int → Bool) (lo hi best : Int)
    (h1 : 10 ≤ lo) (h2 : 10 ≤ best) : 10 ≤ fontSearch p lo hi best := by
  rw [fontSearch_step]
  by_cases h : lo ≤ hi
  · obtain ⟨hm1, hm2⟩ := fdiv2_bounds h
    by_cases hp : p ((lo + hi).fdiv 2) = true
    · rw [if_pos h, if_pos hp]
      exact fontSearch_ge p ((lo + hi).fdiv 2 + 1) hi ((lo + hi).fdiv 2)
        (by omega) (by omega)
    · rw [if_pos h, if_neg hp]
      exact fontSearch_ge p lo ((lo + hi).fdiv 2 - 1) best h1 h2
  · rw [if_neg h]
    exact h2
termination_by (hi + 1 - lo).toNat
decreasing_by
  · rw [Int.fdiv_eq_ediv _ (by omega)] at *
    omega
  · rw [Int.fdiv_eq_ediv _ (by omega)] at *
    omega

/-- Main loop invariant: with a downward-closed probe, the search returns a
satisfying size in `[10, H]` above which nothing in the range satisfies. -/
theorem fontSearch_max (p : Int → Bool)
    (mono : ∀ s t : Int, s ≤ t → p t = true → p s = true) (H : Int)
    (lo hi best : Int)
    (hlo : 10 ≤ lo) (hhi : hi ≤ H) (hb10 : 10 ≤ best) (hblo : best ≤ lo)
    (hbH : best ≤ H) (hpb : p best = true)
    (habove : ∀ s : Int, hi < s → s ≤ H → p s = false)
    (hgap : ∀ s : Int, best < s → s < lo → p s = false) :
    p (fontSearch p lo hi best) = true ∧
    10 ≤ fontSearch p lo hi best ∧ fontSearch p lo hi best ≤ H ∧
    ∀ s : Int, fontSearch p lo hi best < s → s ≤ H → p s = false := by
  rw [fontSearch_step]
  by_cases h : lo ≤ hi
  · obtain ⟨hm1, hm2⟩ := fdiv2_bounds h
    by_cases hp : p ((lo + hi).fdiv 2) = true
    · rw [if_pos h, if_pos hp]
      exact fontSearch_max p mono H ((lo + hi).fdiv 2 + 1) hi ((lo + hi).fdiv 2)
        (by omega) hhi (by omega) (by omega) (by omega) hp habove
        (fun s h1 h2 => absurd h2 (by omega))
    · rw [if_pos h, if_neg hp]
      refine fontSearch_max p mono H lo ((lo + hi).fdiv 2 - 1) best hlo
        (by omega) hb10 hblo hbH hpb ?_ hgap
      intro s hs1 hs2
      by_cases hsh : s ≤ hi
      · cases hps : p s with
        | false => rfl
        | true => exact absurd (mono _ s (by omega) hps) hp
      · exact habove s (by omega) hs2
  · rw [if_neg h]
    refine ⟨hpb, hb10, hbH, ?_⟩
    intro s hs1 hs2
    by_cases hsl : s < lo
    · exact hgap s (by omega) hsl
    · exact habove s (by omega) hs2
termination_by (hi + 1 - lo).toNat
decreasing_by
  · rw [Int.fdiv_eq_ediv _ (by omega)] at *
    omega
  · rw [Int.fdiv_eq_ediv _ (by omega)] at *
    omega

/-! ## C1 — search correctness -/

/-- C1: for every text, canvas, font path and target ratio, whenever some
integer size `S` in `[10, min(width, height)]` is feasible (the measured
bounding box at `S` fits within `r · width` and `r · height`), and
feasibility is downward closed in the size (the documented monotonicity
invariant of the text-measurement backend), `calculate_font_size` returns
the maximum feasible size of that range: its result is feasible, lies in
the range, and dominates every feasible size of the range. -/
theorem c1_calculate_font_size_max_feasible
    (measure : String → String → Int → Option BBox)
    (text font_path : String) (w h : Int) (r : ℚ)
    (mono : ∀ s t : Int, s ≤ t →
      fitsAt (measure font_path text) ((w : ℚ) * r) ((h : ℚ) * r) t = true →
      fitsAt (measure font_path text) ((w : ℚ) * r) ((h : ℚ) * r) s = true)
    (S : Int) (hS1 : 10 ≤ S) (hS2 : S ≤ min w h)
    (hSfit : fitsAt (measure font_path text) ((w : ℚ) * r) ((h : ℚ) * r) S = true) :
    fitsAt (measure font_path text) ((w : ℚ) * r) ((h : ℚ) * r)
      (calculate_font_size measure text (w, h) font_path r) = true ∧
    10 ≤ calculate_font_size measure text (w, h) font_path r ∧
    calculate_font_size measure text (w, h) font_path r ≤ min w h ∧
    ∀ s : Int, 10 ≤ s → s ≤ min w h →
      fitsAt (measure font_path text) ((w : ℚ) * r) ((h : ℚ) * r) s = true →
      s ≤ calculate_font_size measure text (w, h) font_path r := by
  have hcalc : calculate_font_size measure text (w, h) font_path r =
      fontSearch (fitsAt (measure font_path text) ((w : ℚ) * r) ((h : ℚ) * r))
        10 (min w h) 10 := rfl
  have hmain := fontSearch_max
    (fitsAt (measure font_path text) ((w : ℚ) * r) ((h : ℚ) * r)) mono
    (min w h) 10 (min w h) 10 le_rfl le_rfl le_rfl le_rfl (by omega)
    (mono 10 S hS1 hSfit)
    (fun s h1 h2 => absurd (h1.trans_le h2) (lt_irrefl _))
    (fun s h1 h2 => absurd (h1.trans h2) (lt_irrefl _))
  rw [hcalc]
  refine ⟨hmain.1, hmain.2.1, hmain.2.2.1, ?_⟩
  intro s hs1 hs2 hfit
  by_contra hcon
  have hfalse := hmain.2.2.2 s (by omega) hs2
  rw [hfit] at hfalse
  exact absurd hfalse (by simp)

theorem c1_calculate_font_size_max_feasible_witness :
    10 ≤ calculate_font_size measC1 "1" ((100 : Int), (100 : Int)) "f" 2 ∧
    calculate_font_size measC1 "1" ((100 : Int), (100 : Int)) "f" 2 ≤
      min (100 : Int) 100 := by
  have h := c1_calculate_font_size_max_feasible measC1 "1" "f" 100 100 2
    (fun _ _ _ ht => ht) 10 (by decide) (by decide)
    (by simp only [fitsAt, measC1]; norm_num)
  exact ⟨h.2.1, h.2.2.1⟩

/-! ## C2 — centered origin -/

/-- C2: for every canvas and measured bounding box, the centered draw origin
is `x = (canvas_width − (right − left)) // 2` and
`y = (canvas_height − top − bottom) // 2` with floor division; in
particular bounding box `(0, 5, 40, 30)` on a `100×100` canvas gives
origin `(30, 32)`. -/
theorem c2_centered_origin_formula :
    (∀ (canvas_width canvas_height : Int) (b : BBox),
      centered_origin (canvas_width, canvas_height) b =
        ((canvas_width - (b.right - b.left)).fdiv 2,
         (canvas_height - b.top - b.bottom).fdiv 2)) ∧
    centered_origin (100, 100) ⟨0, 5, 40, 30⟩ = (30, 32) :=
  ⟨fun _ _ _ => rfl, by decide⟩

/-! ## C3 — probe errors are recovered -/

/-- C3: a measurement error at the probed midpoint makes the search lower
its upper bound to `midpoint − 1`, exactly as an unfit size would, and the
error never escapes: even when every probe errors, `calculate_font_size`
still returns an integer, namely 10. -/
theorem c3_probe_error_recovered :
    (∀ (measure : String → String → Int → Option BBox)
       (font_path text : String) (tw th : ℚ) (lo hi best : Int),
      lo ≤ hi →
      measure font_path text ((lo + hi).fdiv 2) = none →
      fontSearch (fitsAt (measure font_path text) tw th) lo hi best =
        fontSearch (fitsAt (measure font_path text) tw th) lo
          ((lo + hi).fdiv 2 - 1) best) ∧
    (∀ (measure : String → String → Int → Option BBox)
       (text font_path : String) (w h : Int) (r : ℚ),
      (∀ s : Int, measure font_path text s = none) →
      calculate_font_size measure text (w, h) font_path r = 10) := by
  constructor
  · intro measure font_path text tw th lo hi best hlh herr
    conv_lhs => rw [fontSearch_step]
    rw [if_pos hlh, if_neg (by simp [fitsAt, herr])]
  · intro measure text font_path w h r herr
    have hcalc : calculate_font_size measure text (w, h) font_path r =
        fontSearch (fitsAt (measure font_path text) ((w : ℚ) * r) ((h : ℚ) * r))
          10 (min w h) 10 := rfl
    rw [hcalc]
    exact fontSearch_all_false _ _ _ _ (fun s _ _ => by simp [fitsAt, herr])

theorem c3_probe_error_recovered_witness :
    calculate_font_size (fun _ _ _ => none) "1" ((800 : Int), (600 : Int))
      "DejaVu.ttf" (3 / 5) = 10 :=
  c3_probe_error_recovered.2 (fun _ _ _ => none) "1" "DejaVu.ttf" 800 600
    (3 / 5) (fun _ => rfl)

/-! ## C4 — termination, bounds, and the degenerate canvas -/

/-- C4: the search runs between lower bound 10 and upper bound
`min(canvas_width, canvas_height)` and always yields a result of at least
10 (the embedding is a total function, so the loop provably terminates);
when no size in that range satisfies the ratio constraint it returns
exactly 10; and on a `10×10` canvas (bounds collapse immediately) the
result is at least 10 for every ratio, `0.999999` included. -/
theorem c4_bounds_and_default :
    (∀ (measure : String → String → Int → Option BBox)
       (text font_path : String) (w h : Int) (r : ℚ),
      10 ≤ calculate_font_size measure text (w, h) font_path r) ∧
    (∀ (measure : String → String → Int → Option BBox)
       (text font_path : String) (w h : Int) (r : ℚ),
      (∀ s : Int, 10 ≤ s → s ≤ min w h →
        fitsAt (measure font_path text) ((w : ℚ) * r) ((h : ℚ) * r) s = false) →
      calculate_font_size measure text (w, h) font_path r = 10) ∧
    (∀ (measure : String → String → Int → Option BBox)
       (text font_path : String) (r : ℚ),
      10 ≤ calculate_font_size measure text ((10 : Int), (10 : Int)) font_path r) := by
  refine ⟨?_, ?_, ?_⟩
  · intro measure text font_path w h r
    exact fontSearch_ge _ 10 (min w h) 10 le_rfl le_rfl
  · intro measure text font_path w h r hall
    exact fontSearch_all_false _ 10 (min w h) 10 hall
  · intro measure text font_path r
    exact fontSearch_ge _ 10 (min 10 10) 10 le_rfl le_rfl

theorem c4_bounds_and_default_witness :
    10 ≤ calculate_font_size (fun _ _ _ => none) "7" ((10 : Int), (10 : Int))
      "f" (999999 / 1000000) ∧
    calculate_font_size (fun _ _ _ => none) "7" ((10 : Int), (10 : Int))
      "f" (999999 / 1000000) = 10 :=
  ⟨c4_bounds_and_default.2.2 (fun _ _ _ => none) "7" "f" (999999 / 1000000),
   c4_bounds_and_default.2.1 (fun _ _ _ => none) "7" "f" 10 10
     (999999 / 1000000) (fun s _ _ => by simp [fitsAt])⟩

/-! ## C7 / C10 — no-overwrite skip semantics -/

/-- Shared fact: with `overwrite` off and an existing output path,
`generate_placeholder_image` takes the skip branch of line 181: unchanged
filesystem, a single skip line, and the path returned as a success. -/
theorem skip_branch_eq (env : GenEnv) (names : List (String × List Nat))
    (fs : String → Option (List Nat)) (number : Int) (output_path : String)
    (size : Int × Int) (bg_color text_color : String) (format : ImgFormat)
    (font_path : Option String) (font_size : Option Int) (jpg_quality : Int)
    (padding : ℚ) (hex : (fs output_path).isSome = true) :
    generate_placeholder_image env names fs number output_path size bg_color
      text_color format font_path font_size jpg_quality false padding =
      ((fs, ["Skipping " ++ output_path ++ " (already exists)"]),
       Except.ok output_path) := by
  simp [generate_placeholder_image, hex]

/-- C7: when the output path already exists and `overwrite` is off,
`generate_placeholder_image` performs no write — the returned filesystem is
the input filesystem itself, so every existing file keeps its bytes — and
the only output line reports the skip. -/
theorem c7_no_overwrite_skips (env : GenEnv) (names : List (String × List Nat))
    (fs : String → Option (List Nat)) (number : Int) (output_path : String)
    (size : Int × Int) (bg_color text_color : String) (format : ImgFormat)
    (font_path : Option String) (font_size : Option Int) (jpg_quality : Int)
    (padding : ℚ) (hex : (fs output_path).isSome = true) :
    generate_placeholder_image env names fs number output_path size bg_color
      text_color format font_path font_size jpg_quality false padding =
      ((fs, ["Skipping " ++ output_path ++ " (already exists)"]),
       Except.ok output_path) :=
  skip_branch_eq env names fs number output_path size bg_color text_color
    format font_path font_size jpg_quality padding hex

theorem c7_no_overwrite_skips_witness :
    generate_placeholder_image envW [] fsA 1 "a.png" (800, 600) "#cccccc"
      "#333333" ImgFormat.png none none 90 false (1 / 5) =
      ((fsA, ["Skipping a.png (already exists)"]), Except.ok "a.png") :=
  c7_no_overwrite_skips envW [] fsA 1 "a.png" (800, 600) "#cccccc" "#333333"
    ImgFormat.png none none 90 (1 / 5) (by simp [fsA])

/-- C10: a pre-existing path skipped by the no-overwrite check is still
returned as a success, so the batch appends it to `generated_files` and
prints the same `"Generated: <path>"` line as for a freshly written image —
the returned list does not distinguish skipped from generated. -/
theorem c10_skip_counted_as_generated (env : GenEnv)
    (names : List (String × List Nat)) (bytes : List Nat) (size : Int × Int)
    (bg_color text_color : String) (font_size : Option Int)
    (font_path : Option String) (jpg_quality : Int) (padding : ℚ) :
    generate_placeholder_images env names
        (fun p => if p = "out/img_1.png" then some bytes else none)
        "out" 1 1 size bg_color text_color ImgFormat.png "img_" font_size
        font_path jpg_quality false padding =
      (((fun p => if p = "out/img_1.png" then some bytes else none),
        ["Skipping out/img_1.png (already exists)",
         "Generated: out/img_1.png"]),
       ["out/img_1.png"]) := by
  have hskip := skip_branch_eq env names
    (fun p => if p = "out/img_1.png" then some bytes else none) 1
    "out/img_1.png" size bg_color text_color ImgFormat.png font_path
    font_size jpg_quality padding (by simp)
  have hpath2 : ("out/" ++ ("img_" ++ toString (1 : Int) ++ "." ++
      fmtExt ImgFormat.png)) = "out/img_1.png" := rfl
  simp [generate_placeholder_images, batchLoop, hpath2, hskip]

/-! ## C8 — equivalent colour spellings -/

/-- C8: equivalent colour spellings resolve to the same fully resolved
4-channel value with alpha defaulting to 255:
`parse_color "#fff" = parse_color "#ffffff" = (255,255,255,255)` and
`parse_color "#0000" = (0,0,0,0)`, for any name table. -/
theorem c8_parse_color_equiv :
    ∀ names : List (String × List Nat),
      parse_color names "#fff" = parse_color names "#ffffff" ∧
      parse_color names "#fff" = Except.ok [255, 255, 255, 255] ∧
      parse_color names "#0000" = Except.ok [0, 0, 0, 0] :=
  fun _ => ⟨rfl, rfl, rfl⟩

/-! ## C9 — invalid colours fail with the offending input -/

/-- Successful hex parsing preserves the digit count. -/
theorem hexVals_length : ∀ (l : List Char) (vs : List Nat),
    hexVals l = some vs → vs.length = l.length := by
  intro l
  induction l with
  | nil => intro vs h; simp [hexVals] at h; simp [← h]
  | cons c cs ih =>
    intro vs h
    rw [hexVals] at h
    cases hc : hexDigitVal c with
    | none => rw [hc] at h; simp at h
    | some v =>
      rw [hc] at h
      cases hcs : hexVals cs with
      | none => rw [hcs] at h; simp at h
      | some ws =>
        rw [hcs] at h
        simp at h
        simp [← h, ih ws hcs]

/-- A non-hex character anywhere makes hex parsing fail. -/
theorem hexVals_none : ∀ l : List Char,
    (l.all fun c => (hexDigitVal c).isSome) = false → hexVals l = none := by
  intro l
  induction l with
  | nil => intro h; simp at h
  | cons c cs ih =>
    intro h
    rw [List.all_cons, Bool.and_eq_false_iff] at h
    rw [hexVals]
    cases h with
    | inl hc =>
      cases hcv : hexDigitVal c with
      | none => rfl
      | some v => rw [hcv] at hc; simp at hc
    | inr hcs =>
      rw [ih hcs]
      cases hexDigitVal c <;> rfl

/-- C9: every input that matches neither the hex grammar (`#` + 3/4/6/8 hex
digits) nor the named-colour table makes `parse_color` fail with an error
naming the offending input; in particular `"notacolor123"` does. -/
theorem c9_invalid_color_error :
    (∀ (names : List (String × List Nat)) (color : String),
      isHexColor color = false →
      names.lookup (String.mk (color.toList.map Char.toLower)) = none →
      parse_color names color =
        Except.error ("Unrecognized color: " ++ color)) ∧
    (∀ names : List (String × List Nat),
      names.lookup "notacolor123" = none →
      parse_color names "notacolor123" =
        Except.error "Unrecognized color: notacolor123") := by
  have hmain : ∀ (names : List (String × List Nat)) (color : String),
      isHexColor color = false →
      names.lookup (String.mk (color.toList.map Char.toLower)) = none →
      getcolorRGBA names color = none := by
    intro names color hhex hlook
    unfold getcolorRGBA
    split
    case _ ds heq =>
      simp only [isHexColor, heq] at hhex
      rw [Bool.and_eq_false_iff] at hhex
      cases hhex with
      | inl hall => rw [hexVals_none ds hall]
      | inr hlen =>
        cases hv : hexVals ds with
        | none => rfl
        | some vs =>
          have hlength := hexVals_length ds vs hv
          simp only [Bool.or_eq_false_iff, decide_eq_false_iff_not] at hlen
          obtain ⟨⟨⟨h3, h4⟩, h6⟩, h8⟩ := hlen
          rcases vs with _ | ⟨a, _ | ⟨b, _ | ⟨c, _ | ⟨d, _ | ⟨e, _ |
            ⟨f, _ | ⟨g, _ | ⟨i, _ | ⟨j, rest⟩⟩⟩⟩⟩⟩⟩⟩⟩ <;>
            simp at hlength <;> first
              | rfl
              | (exact absurd hlength.symm h3)
              | (exact absurd hlength.symm h4)
              | (exact absurd hlength.symm h6)
              | (exact absurd hlength.symm h8)
    case _ =>
      rw [hlook]
  constructor
  · intro names color hhex hlook
    unfold parse_color
    rw [hmain names color hhex hlook]
  · intro names h
    unfold parse_color
    rw [hmain names "notacolor123" (by rfl)
      (by rw [(by rfl : String.mk ("notacolor123".toList.map Char.toLower) =
        "notacolor123")]; exact h)]
    rfl

theorem c9_invalid_color_error_witness :
    parse_color [("white", [255, 255, 255])] "notacolor123" =
      Except.error "Unrecognized color: notacolor123" :=
  c9_invalid_color_error.2 [("white", [255, 255, 255])] rfl

/-! ## C6 — font discovery order -/

/-- `List.find?` returns the element at index `i` when it satisfies the
predicate and everything before it does not. -/
theorem find?_of_first {α : Type} (pred : α → Bool) :
    ∀ (l : List α) (i : Nat) (a : α),
    l[i]? = some a → pred a = true →
    (∀ j, j < i → ∀ b, l[j]? = some b → pred b = false) →
    l.find? pred = some a := by
  intro l
  induction l with
  | nil => intro i a h _ _; simp at h
  | cons x xs ih =>
    intro i a hget hpred hbefore
    cases i with
    | zero =>
      simp only [List.getElem?_cons_zero, Option.some.injEq] at hget
      subst hget
      simp [List.find?_cons, hpred]
    | succ n =>
      have hx : pred x = false :=
        hbefore 0 (Nat.succ_pos n) x (by simp)
      rw [List.find?_cons, hx]
      exact ih n a (by simpa using hget) hpred
        (fun j hj b hb => hbefore (j + 1) (by omega) b (by simpa using hb))

/-- If every existing directory's walk holds no font file, the fallback scan
finds nothing. -/
theorem findFontInDirs_none (pe : String → Bool)
    (walk : String → List (String × String)) :
    ∀ ds : List String,
    (∀ d ∈ ds, pe d = true → ∀ rf ∈ walk d, isFontFile rf.2 = false) →
    findFontInDirs pe walk ds = none := by
  intro ds
  induction ds with
  | nil => intro _; rfl
  | cons d ds ih =>
    intro h
    rw [findFontInDirs]
    by_cases hd : pe d = true
    · rw [if_pos hd]
      have hnone : (walk d).find? (fun rf => isFontFile rf.2) = none := by
        rw [List.find?_eq_none]
        intro rf hrf
        simp [h d (List.mem_cons_self d ds) hd rf hrf]
      rw [hnone]
      exact ih (fun d' hd' => h d' (List.mem_cons_of_mem _ hd'))
    · rw [if_neg hd]
      exact ih (fun d' hd' => h d' (List.mem_cons_of_mem _ hd'))

/-- Unproductive leading directories (missing, or without any font file in
their walk) are skipped by the fallback scan. -/
theorem findFontInDirs_skip (pe : String → Bool)
    (walk : String → List (String × String)) :
    ∀ (ds1 ds2 : List String),
    (∀ d ∈ ds1, pe d = false ∨ ∀ rf ∈ walk d, isFontFile rf.2 = false) →
    findFontInDirs pe walk (ds1 ++ ds2) = findFontInDirs pe walk ds2 := by
  intro ds1
  induction ds1 with
  | nil => intro ds2 _; rfl
  | cons d ds ih =>
    intro ds2 h
    rw [List.cons_append, findFontInDirs]
    have hrest := fun d' hd' => h d' (List.mem_cons_of_mem _ hd')
    cases h d (List.mem_cons_self d ds) with
    | inl hfalse =>
      rw [if_neg (by simp [hfalse])]
      exact ih ds2 hrest
    | inr hnone =>
      by_cases hpe : pe d = true
      · rw [if_pos hpe]
        have hfind : (walk d).find? (fun rf => isFontFile rf.2) = none := by
          rw [List.find?_eq_none]
          intro rf hrf
          simp [hnone rf hrf]
        rw [hfind]
        exact ih ds2 hrest
      · rw [if_neg hpe]
        exact ih ds2 hrest

/-- C6: with no explicit path, `find_system_font` (i) returns the first
existing path of the platform category's well-known list; (ii) if none of
those exist, it scans the fallback directory list in order and returns
`root ++ "/" ++ file` for the first walked file whose lower-cased name ends
in `.ttf`/`.otf`; (iii) if nothing is found anywhere it fails with the
NotFound error. -/
theorem c6_find_system_font :
    (∀ (pf : Platform) (pe : String → Bool)
       (walk : String → List (String × String)) (home : String)
       (i : Nat) (p : String),
      (potential_fonts pf)[i]? = some p → pe p = true →
      (∀ j, j < i → ∀ q, (potential_fonts pf)[j]? = some q → pe q = false) →
      find_system_font pf pe walk home = Except.ok p) ∧
    (∀ (pf : Platform) (pe : String → Bool)
       (walk : String → List (String × String)) (home : String)
       (ds1 : List String) (d : String) (ds2 : List String)
       (k : Nat) (rf : String × String),
      (∀ q ∈ potential_fonts pf, pe q = false) →
      font_dirs home = ds1 ++ d :: ds2 →
      (∀ d' ∈ ds1, pe d' = false ∨ ∀ rf' ∈ walk d', isFontFile rf'.2 = false) →
      pe d = true →
      (walk d)[k]? = some rf → isFontFile rf.2 = true →
      (∀ j, j < k → ∀ rf', (walk d)[j]? = some rf' → isFontFile rf'.2 = false) →
      find_system_font pf pe walk home = Except.ok (rf.1 ++ "/" ++ rf.2)) ∧
    (∀ (pf : Platform) (pe : String → Bool)
       (walk : String → List (String × String)) (home : String),
      (∀ q ∈ potential_fonts pf, pe q = false) →
      (∀ d ∈ font_dirs home, pe d = true →
        ∀ rf ∈ walk d, isFontFile rf.2 = false) →
      find_system_font pf pe walk home = Except.error
        "Could not find any usable font. Please specify a font with --font-path.") := by
  refine ⟨?_, ?_, ?_⟩
  · intro pf pe walk home i p hget hp hbefore
    unfold find_system_font
    rw [find?_of_first pe (potential_fonts pf) i p hget hp hbefore]
  · intro pf pe walk home ds1 d ds2 k rf hpot hdirs hskip hpe hget hfont hbefore
    unfold find_system_font
    have h1 : (potential_fonts pf).find? pe = none := by
      rw [List.find?_eq_none]
      intro q hq
      simp [hpot q hq]
    rw [h1, hdirs, findFontInDirs_skip pe walk ds1 (d :: ds2) hskip,
      findFontInDirs, if_pos hpe,
      find?_of_first (fun rf' => isFontFile rf'.2) (walk d) k rf hget
        (by simpa using hfont)
        (fun j hj b hb => by simpa using hbefore j hj b hb)]
  · intro pf pe walk home hpot hdirs
    unfold find_system_font
    have h1 : (potential_fonts pf).find? pe = none := by
      rw [List.find?_eq_none]
      intro q hq
      simp [hpot q hq]
    rw [h1, findFontInDirs_none pe walk (font_dirs home) hdirs]

theorem c6_find_system_font_witness :
    find_system_font Platform.windows
        (fun p => decide (p = "C:\\Windows\\Fonts\\Arial.ttf"))
        (fun _ => []) "/root" =
      Except.ok "C:\\Windows\\Fonts\\Arial.ttf" ∧
    find_system_font Platform.other
        (fun p => decide (p = "/usr/share/fonts")) walkW "/root" =
      Except.ok ("/usr/share/fonts/sub" ++ "/" ++ "Zfont.TTF") ∧
    find_system_font Platform.other (fun _ => false) (fun _ => []) "/root" =
      Except.error
        "Could not find any usable font. Please specify a font with --font-path." := by
  refine ⟨?_, ?_, ?_⟩
  · exact c6_find_system_font.1 Platform.windows
      (fun p => decide (p = "C:\\Windows\\Fonts\\Arial.ttf")) (fun _ => [])
      "/root" 0 "C:\\Windows\\Fonts\\Arial.ttf" rfl (by decide)
      (fun j hj b hb => absurd hj (Nat.not_lt_zero j))
  · exact c6_find_system_font.2.1 Platform.other
      (fun p => decide (p = "/usr/share/fonts")) walkW "/root" []
      "/usr/share/fonts"
      ["/usr/local/share/fonts", "/root/.fonts", "C:\\Windows\\Fonts",
       "/Library/Fonts", "/System/Library/Fonts"] 0
      ("/usr/share/fonts/sub", "Zfont.TTF") (by decide) rfl
      (fun d hd => absurd hd (List.not_mem_nil d)) (by decide) rfl (by decide)
      (fun j hj b hb => absurd hj (Nat.not_lt_zero j))
  · exact c6_find_system_font.2.2 Platform.other (fun _ => false)
      (fun _ => []) "/root" (fun q _ => rfl)
      (fun d _ h => absurd h Bool.false_ne_true)

/-! ## C5 — batch partial failure -/

/-- C5: in a 3-image batch starting at 1 where measurement fails exactly for
the text `"2"`, the error of image 2 is caught and logged as
`"Error generating out/img_2.png: <message>"`, and images 1 and 3 are still
produced: the generated list is exactly their two paths and the log shows
all three sequential attempts. -/
theorem c5_batch_partial_failure (env : GenEnv)
    (names : List (String × List Nat)) (bg_color text_color fp em : String)
    (bgc tcc : List Nat) (b1 b3 : BBox) (size : Int × Int)
    (jpg_quality : Int) (padding : ℚ)
    (hbg : parse_color names bg_color = Except.ok bgc)
    (htc : parse_color names text_color = Except.ok tcc)
    (htt : ∀ p s, env.truetype p s = Except.ok ⟨p, s⟩)
    (hg1 : ∀ f, env.getbbox f "1" = Except.ok b1)
    (hg2 : ∀ f, env.getbbox f "2" = Except.error em)
    (hg3 : ∀ f, env.getbbox f "3" = Except.ok b3) :
    (generate_placeholder_images env names (fun _ => none) "out" 3 1 size
        bg_color text_color ImgFormat.png "img_" none (some fp) jpg_quality
        false padding).2 = ["out/img_1.png", "out/img_3.png"] ∧
    (generate_placeholder_images env names (fun _ => none) "out" 3 1 size
        bg_color text_color ImgFormat.png "img_" none (some fp) jpg_quality
        false padding).1.2 =
      ["Generated: out/img_1.png",
       "Error generating out/img_2.png: " ++ em,
       "Generated: out/img_3.png"] := by
  have ht1 : toString (1 : Int) = "1" := rfl
  have ht2 : toString (2 : Int) = "2" := rfl
  have ht3 : toString (3 : Int) = "3" := rfl
  have hok : ∀ (fs : String → Option (List Nat)) (n : Int) (path : String)
      (bb : BBox), fs path = none →
      (∀ f, env.getbbox f (toString n) = Except.ok bb) →
      generate_placeholder_image env names fs n path size bg_color text_color
        ImgFormat.png (some fp) none jpg_quality false padding =
        ((fun p => if p = path then
            some (env.encode ImgFormat.png size bgc tcc (toString n)
              (centered_origin size bb)
              ⟨fp, calculate_font_size (measureOf env) (toString n) size fp
                (1 - 2 * padding)⟩
              (calculate_font_size (measureOf env) (toString n) size fp
                (1 - 2 * padding))
              jpg_quality)
          else fs p, []), Except.ok path) := by
    intro fs n path bb hfs hbb
    simp [generate_placeholder_image, hfs, hbg, htc, htt, hbb]
  have herr : ∀ (fs : String → Option (List Nat)) (path : String),
      fs path = none →
      generate_placeholder_image env names fs 2 path size bg_color text_color
        ImgFormat.png (some fp) none jpg_quality false padding =
        ((fs, []), Except.error em) := by
    intro fs path hfs
    simp [generate_placeholder_image, hfs, hbg, htc, htt, ht2, hg2]
  have h1 := hok (fun _ => none) 1 "out/img_1.png" b1 rfl
    (fun f => ht1 ▸ hg1 f)
  have h2 := herr
    (fun p => if p = "out/img_1.png" then
      some (env.encode ImgFormat.png size bgc tcc (toString (1 : Int))
        (centered_origin size b1)
        ⟨fp, calculate_font_size (measureOf env) (toString (1 : Int)) size fp
          (1 - 2 * padding)⟩
        (calculate_font_size (measureOf env) (toString (1 : Int)) size fp
          (1 - 2 * padding))
        jpg_quality)
      else none)
    "out/img_2.png" (by simp)
  have h3 := hok
    (fun p => if p = "out/img_1.png" then
      some (env.encode ImgFormat.png size bgc tcc (toString (1 : Int))
        (centered_origin size b1)
        ⟨fp, calculate_font_size (measureOf env) (toString (1 : Int)) size fp
          (1 - 2 * padding)⟩
        (calculate_font_size (measureOf env) (toString (1 : Int)) size fp
          (1 - 2 * padding))
        jpg_quality)
      else none)
    3 "out/img_3.png" b3 (by simp) (fun f => ht3 ▸ hg3 f)
  have hpath1 : ("out/" ++ ("img_" ++ toString (1 : Int) ++ "." ++
      fmtExt ImgFormat.png)) = "out/img_1.png" := rfl
  have hpath2 : ("out/" ++ ("img_" ++ toString (2 : Int) ++ "." ++
      fmtExt ImgFormat.png)) = "out/img_2.png" := rfl
  have hpath3 : ("out/" ++ ("img_" ++ toString (3 : Int) ++ "." ++
      fmtExt ImgFormat.png)) = "out/img_3.png" := rfl
  constructor <;>
    simp [generate_placeholder_images, batchLoop, hpath1, hpath2, hpath3,
      h1, h2, h3]

theorem c5_batch_partial_failure_witness :
    (generate_placeholder_images envW [] (fun _ => none) "out" 3 1 (800, 600)
        "#cccccc" "#333333" ImgFormat.png "img_" none (some "f") 90 false
        (1 / 5)).2 = ["out/img_1.png", "out/img_3.png"] ∧
    (generate_placeholder_images envW [] (fun _ => none) "out" 3 1 (800, 600)
        "#cccccc" "#333333" ImgFormat.png "img_" none (some "f") 90 false
        (1 / 5)).1.2 =
      ["Generated: out/img_1.png",
       "Error generating out/img_2.png: bad glyph",
       "Generated: out/img_3.png"] :=
  c5_batch_partial_failure envW [] "#cccccc" "#333333" "f" "bad glyph"
    [204, 204, 204, 255] [51, 51, 51, 255] ⟨0, 0, 1, 1⟩ ⟨0, 0, 1, 1⟩
    (800, 600) 90 (1 / 5) rfl rfl (fun _ _ => rfl) (fun _ => rfl)
    (fun _ => rfl) (fun _ => rfl)
